import Mathlib

/-!
Shallow embedding of the `dto_test` repository: four unit-conversion tools
(`src/tools/*.py`), the error-interceptor middleware
(`src/utils/middlewere_funcs.py`), and the state-tracking node plus agent
state (`src/main.py`, `src/dto/state.py`).

Modelling conventions:
  * Python `float` values are modelled as exact rationals (`ℚ`); every claim
    about them carries a tolerance of at least 1e-9, so exact equality over
    `ℚ` settles it.
  * Python `None` is `Option.none`; a nullable field is an `Option`.
  * A raised exception is `Except.error` carrying the exception's message
    string (the value Python renders for `str(e)`).
  * `datetime.now()` is nondeterministic input: each entry point takes the
    current timestamp `now` as an explicit parameter (its value never enters
    any computation, it is only stored in the response).
  * Logging calls are side effects with no influence on results and are not
    modelled.
-/

/-- Python truthiness of an optional boolean, as tested by `if b:` —
`None` and `False` are falsy, `True` is truthy. -/
def pyTruthy (b : Option Bool) : Bool :=
  b.getD false

/-- Request schema of `src/tools/feet_meters.py` (`class FeetToMeters`):
four optional fields. -/
structure FeetToMeters where
  feet : Option ℚ
  miles : Option ℚ
  expressed_in_miles : Option Bool
  expressed_in_feet : Option Bool

/-- Response schema of `src/tools/feet_meters.py`
(`class FeetToMetersResponse`). -/
structure FeetToMetersResponse where
  input_value : Option ℚ
  input_unit : Option String
  output_value : Option ℚ
  output_unit : Option String
  timestamp : Option ℕ

/-- `FeetToMetersTool._run` from `src/tools/feet_meters.py`: branch on
which primary field is non-null, apply the conversion and the optional
alternate-unit adjustment, package a response; raise
`ValueError("Feet or Miles is required")` when both primaries are null. -/
def FeetToMetersTool.run (now : ℕ) (req : FeetToMeters) :
    Except String FeetToMetersResponse :=
  let feet := req.feet
  let miles := req.miles
  let expressed_in_miles := req.expressed_in_miles
  let expressed_in_feet := req.expressed_in_feet
  match feet with
  | some f =>
      let meters := f * 0.3048
      let meters := if pyTruthy expressed_in_miles then meters / 1609.34 else meters
      .ok { input_value := feet
            input_unit := some "feet"
            output_value := some meters
            output_unit := some "meters"
            timestamp := some now }
  | none =>
      match miles with
      | some m =>
          let kilometers := m * 1.60934
          let kilometers :=
            if pyTruthy expressed_in_feet then kilometers * 0.621371 else kilometers
          .ok { input_value := feet
                input_unit := some "feet"
                output_value := some kilometers
                output_unit := some "kilometers"
                timestamp := some now }
      | none => .error "Feet or Miles is required"

/-- `FeetToMetersTool._arun` from `src/tools/feet_meters.py`: the
asynchronous entry point, whose body in the source is a verbatim copy of
`_run` (no suspension point). -/
def FeetToMetersTool.arun (now : ℕ) (req : FeetToMeters) :
    Except String FeetToMetersResponse :=
  let feet := req.feet
  let miles := req.miles
  let expressed_in_miles := req.expressed_in_miles
  let expressed_in_feet := req.expressed_in_feet
  match feet with
  | some f =>
      let meters := f * 0.3048
      let meters := if pyTruthy expressed_in_miles then meters / 1609.34 else meters
      .ok { input_value := feet
            input_unit := some "feet"
            output_value := some meters
            output_unit := some "meters"
            timestamp := some now }
  | none =>
      match miles with
      | some m =>
          let kilometers := m * 1.60934
          let kilometers :=
            if pyTruthy expressed_in_feet then kilometers * 0.621371 else kilometers
          .ok { input_value := feet
                input_unit := some "feet"
                output_value := some kilometers
                output_unit := some "kilometers"
                timestamp := some now }
      | none => .error "Feet or Miles is required"

/-- Request schema of `src/tools/meters_feet.py` (`class MetersToFeet`). -/
structure MetersToFeet where
  meters : Option ℚ
  kilometers : Option ℚ
  expressed_in_kilometers : Option Bool
  expressed_in_meters : Option Bool

/-- Response schema of `src/tools/meters_feet.py`
(`class MetersToFeetResponse`). -/
structure MetersToFeetResponse where
  input_value : Option ℚ
  input_unit : Option String
  output_value : Option ℚ
  output_unit : Option String
  timestamp : Option ℕ

/-- `MetersToFeetTool._run` from `src/tools/meters_feet.py`. In the
`kilometers` branch the source rebinds the local `meters` to
`kilometers * 1000` and returns it with unit `"meters"`. -/
def MetersToFeetTool.run (now : ℕ) (req : MetersToFeet) :
    Except String MetersToFeetResponse :=
  let meters := req.meters
  let kilometers := req.kilometers
  let expressed_in_kilometers := req.expressed_in_kilometers
  let expressed_in_meters := req.expressed_in_meters
  match meters with
  | some m =>
      let feet := m * 3.28084
      let feet := if pyTruthy expressed_in_kilometers then feet / 1.60934 else feet
      .ok { input_value := meters
            input_unit := some "meters"
            output_value := some feet
            output_unit := some "feet"
            timestamp := some now }
  | none =>
      match kilometers with
      | some k =>
          let meters := k * 1000
          let meters := if pyTruthy expressed_in_meters then meters / 3.28084 else meters
          .ok { input_value := kilometers
                input_unit := some "kilometers"
                output_value := some meters
                output_unit := some "meters"
                timestamp := some now }
      | none => .error "Meters or Kilometers is required"

/-- `MetersToFeetTool._arun` from `src/tools/meters_feet.py`: verbatim copy
of `_run` in the source. -/
def MetersToFeetTool.arun (now : ℕ) (req : MetersToFeet) :
    Except String MetersToFeetResponse :=
  let meters := req.meters
  let kilometers := req.kilometers
  let expressed_in_kilometers := req.expressed_in_kilometers
  let expressed_in_meters := req.expressed_in_meters
  match meters with
  | some m =>
      let feet := m * 3.28084
      let feet := if pyTruthy expressed_in_kilometers then feet / 1.60934 else feet
      .ok { input_value := meters
            input_unit := some "meters"
            output_value := some feet
            output_unit := some "feet"
            timestamp := some now }
  | none =>
      match kilometers with
      | some k =>
          let meters := k * 1000
          let meters := if pyTruthy expressed_in_meters then meters / 3.28084 else meters
          .ok { input_value := kilometers
                input_unit := some "kilometers"
                output_value := some meters
                output_unit := some "meters"
                timestamp := some now }
      | none => .error "Meters or Kilometers is required"

/-- Request schema of `src/tools/fahreheit_celsius.py`
(`class FahrenheitToCelsius`). -/
structure FahrenheitToCelsius where
  fahrenheit : Option ℚ

/-- Response schema of `src/tools/fahreheit_celsius.py`
(`class FahrenheitToCelsiusResponse`). -/
structure FahrenheitToCelsiusResponse where
  input_value : Option ℚ
  input_unit : Option String
  output_value : Option ℚ
  output_unit : Option String
  timestamp : Option ℕ

/-- `FahrenheitToCelsiusTool._run` from `src/tools/fahreheit_celsius.py`:
raises `ValueError("Fahrenheit is required")` when the input is null,
otherwise computes `celsius = (fahrenheit - 32) * 5 / 9`. -/
def FahrenheitToCelsiusTool.run (now : ℕ) (req : FahrenheitToCelsius) :
    Except String FahrenheitToCelsiusResponse :=
  match req.fahrenheit with
  | none => .error "Fahrenheit is required"
  | some fahrenheit =>
      let celsius := (fahrenheit - 32) * 5 / 9
      .ok { input_value := some fahrenheit
            input_unit := some "fahrenheit"
            output_value := some celsius
            output_unit := some "celsius"
            timestamp := some now }

/-- `FahrenheitToCelsiusTool._arun` from `src/tools/fahreheit_celsius.py`:
verbatim copy of `_run` in the source. -/
def FahrenheitToCelsiusTool.arun (now : ℕ) (req : FahrenheitToCelsius) :
    Except String FahrenheitToCelsiusResponse :=
  match req.fahrenheit with
  | none => .error "Fahrenheit is required"
  | some fahrenheit =>
      let celsius := (fahrenheit - 32) * 5 / 9
      .ok { input_value := some fahrenheit
            input_unit := some "fahrenheit"
            output_value := some celsius
            output_unit := some "celsius"
            timestamp := some now }

/-- Request schema of `src/tools/celsius_farenheit.py`
(`class CelsiusToFarenheit`). -/
structure CelsiusToFarenheit where
  celsius : Option ℚ

/-- Response schema of `src/tools/celsius_farenheit.py`
(`class CelsiusToFarenheitResponse`). -/
structure CelsiusToFarenheitResponse where
  input_value : Option ℚ
  input_unit : Option String
  output_value : Option ℚ
  output_unit : Option String
  timestamp : Option ℕ

/-- `CelsiusToFarenheitTool._run` from `src/tools/celsius_farenheit.py`:
raises `ValueError("Celsius is required")` when the input is null, otherwise
computes `farenheit = (celsius * 9 / 5) + 32`. -/
def CelsiusToFarenheitTool.run (now : ℕ) (req : CelsiusToFarenheit) :
    Except String CelsiusToFarenheitResponse :=
  match req.celsius with
  | none => .error "Celsius is required"
  | some celsius =>
      let farenheit := (celsius * 9 / 5) + 32
      .ok { input_value := some celsius
            input_unit := some "celsius"
            output_value := some farenheit
            output_unit := some "farenheit"
            timestamp := some now }

/-- `CelsiusToFarenheitTool._arun` from `src/tools/celsius_farenheit.py`:
verbatim copy of `_run` in the source. -/
def CelsiusToFarenheitTool.arun (now : ℕ) (req : CelsiusToFarenheit) :
    Except String CelsiusToFarenheitResponse :=
  match req.celsius with
  | none => .error "Celsius is required"
  | some celsius =>
      let farenheit := (celsius * 9 / 5) + 32
      .ok { input_value := some celsius
            input_unit := some "celsius"
            output_value := some farenheit
            output_unit := some "farenheit"
            timestamp := some now }

/-- Request schema of `src/tools/celsius_fahrenheit.py`
(`class CelsiusToFahrenheit`). -/
structure CelsiusToFahrenheit where
  celsius : Option ℚ

/-- Response schema of `src/tools/celsius_fahrenheit.py`
(`class CelsiusToFahrenheitResponse`). -/
structure CelsiusToFahrenheitResponse where
  input_value : Option ℚ
  input_unit : Option String
  output_value : Option ℚ
  output_unit : Option String
  timestamp : Option ℕ

/-- `CelsiusToFahrenheitTool._run` from `src/tools/celsius_fahrenheit.py`:
same formula as the `celsius_farenheit` variant, with the correctly
spelled `"fahrenheit"` output unit. -/
def CelsiusToFahrenheitTool.run (now : ℕ) (req : CelsiusToFahrenheit) :
    Except String CelsiusToFahrenheitResponse :=
  match req.celsius with
  | none => .error "Celsius is required"
  | some celsius =>
      let fahrenheit := (celsius * 9 / 5) + 32
      .ok { input_value := some celsius
            input_unit := some "celsius"
            output_value := some fahrenheit
            output_unit := some "fahrenheit"
            timestamp := some now }

/-- `CelsiusToFahrenheitTool._arun` from `src/tools/celsius_fahrenheit.py`:
verbatim copy of `_run` in the source. -/
def CelsiusToFahrenheitTool.arun (now : ℕ) (req : CelsiusToFahrenheit) :
    Except String CelsiusToFahrenheitResponse :=
  match req.celsius with
  | none => .error "Celsius is required"
  | some celsius =>
      let fahrenheit := (celsius * 9 / 5) + 32
      .ok { input_value := some celsius
            input_unit := some "celsius"
            output_value := some fahrenheit
            output_unit := some "fahrenheit"
            timestamp := some now }

/-- A `ToolMessage` as constructed in `src/utils/middlewere_funcs.py`: only
its `content` string matters to the claims. -/
structure ToolMessage where
  content : String

/-- `handle_errors` from `src/utils/middlewere_funcs.py` (decorated with
`wrap_tool_call`): run the inner handler; on normal completion return its
result unchanged (`Sum.inr`), on any raised exception `e` return a
`ToolMessage` with content `"Error: " ++ e` (`Sum.inl`). The total return
type `ToolMessage ⊕ Result` reflects that no exception propagates past the
wrapper. -/
def handle_errors {Request Result : Type} (request : Request)
    (handler : Request → Except String Result) : ToolMessage ⊕ Result :=
  match handler request with
  | .ok r => Sum.inr r
  | .error e => Sum.inl { content := "Error: " ++ e }

/-- A tool call entry of a message, as read by `track_tool_calls` in
`src/main.py` (`tc["name"]`). -/
structure ToolCall where
  name : String

/-- A conversation message as seen by `track_tool_calls`: `tool_calls` is
`none` when the attribute is absent or `None` in Python, `some l` when it is
the list `l`. -/
structure BaseMessage where
  tool_calls : Option (List ToolCall)

/-- `AgentState` from `src/dto/state.py`, restricted to the fields any
embedded operation reads or writes (`messages`, `tool_calls_made`,
`tool_call_count`, `errors`, `has_errors`); the remaining fields
(`current_tool`, `last_conversion_result`, `turn_count`,
`conversation_started_at`, `structured_response`, `metadata`) are neither
read nor written by `track_tool_calls` or `handle_errors`. -/
structure AgentState where
  messages : List BaseMessage
  tool_calls_made : List String
  tool_call_count : ℤ
  errors : List String
  has_errors : Bool

/-- The pydantic defaults of `AgentState` (`src/dto/state.py`): empty
`tool_calls_made`, zero `tool_call_count`, empty `errors`, `has_errors`
false; the conversation is seeded with the user's messages. -/
def AgentState.initial (msgs : List BaseMessage) : AgentState :=
  { messages := msgs
    tool_calls_made := []
    tool_call_count := 0
    errors := []
    has_errors := false }

/-- A state delta as returned by a graph node: the dict of updated fields.
A field that is `none` is absent from the dict and left unchanged by the
orchestrator; `track_tool_calls` only ever populates the two tool-tracking
fields, and the empty dict is the delta with every field `none`. -/
structure StateDelta where
  messages : Option (List BaseMessage) := none
  tool_calls_made : Option (List String) := none
  tool_call_count : Option ℤ := none
  errors : Option (List String) := none
  has_errors : Option Bool := none

/-- `track_tool_calls` from `src/main.py`: take the last message (if any);
when it has a truthy `tool_calls` attribute (present, non-null, non-empty
list), return the delta appending the call names to `tool_calls_made` and
adding their count to `tool_call_count`; otherwise return the empty delta. -/
def track_tool_calls (state : AgentState) : StateDelta :=
  let messages := state.messages
  let last_message := messages.getLast?
  match last_message with
  | none => {}
  | some m =>
      match m.tool_calls with
      | none => {}
      | some tcs =>
          if tcs.isEmpty then {}
          else
            let tool_names := tcs.map ToolCall.name
            { tool_calls_made := some (state.tool_calls_made ++ tool_names)
              tool_call_count := some (state.tool_call_count + (tool_names.length : ℤ)) }

/-- Application of a node's delta by the graph runtime: `messages` carries
the `add_messages` reducer (returned messages are appended), every other
field is replaced by the returned value when present. -/
def applyDelta (s : AgentState) (d : StateDelta) : AgentState :=
  { messages := s.messages ++ d.messages.getD []
    tool_calls_made := d.tool_calls_made.getD s.tool_calls_made
    tool_call_count := d.tool_call_count.getD s.tool_call_count
    errors := d.errors.getD s.errors
    has_errors := d.has_errors.getD s.has_errors }

/-- The `track_state` node of the workflow in `src/main.py`: apply the delta
computed by `track_tool_calls` to the state. -/
def trackStep (s : AgentState) : AgentState :=
  applyDelta s (track_tool_calls s)

/-- Modelled from the spec: the `agent` node of the workflow is the excluded
agent-framework collaborator; per the spec its step produces conversation
messages, and `AgentState` is "mutated only by the State Tracker after each
agent step", so its delta carries only messages. -/
def agentStep (s : AgentState) (produced : List BaseMessage) : AgentState :=
  applyDelta s { messages := some produced }

/-- The reachable states of the compiled workflow of `src/main.py`
(`START → agent → track_state → END`, iterated over invocations): the
initial state with any seed messages, closed under the agent node and the
state-tracker node. -/
inductive Reachable : AgentState → Prop
  | init (msgs : List BaseMessage) : Reachable (AgentState.initial msgs)
  | agent (s : AgentState) (produced : List BaseMessage) :
      Reachable s → Reachable (agentStep s produced)
  | track (s : AgentState) : Reachable s → Reachable (trackStep s)

/-! ## Theorems settling the claims -/

/-- Claim C1: for every request whose `feet` field is a non-null value `f`,
both entry points of the feet-to-meters tool return the same successful
response, whose `output_value` is `f × 0.3048` — further divided by
`1609.34` exactly when `expressed_in_miles` is true, unchanged when it is
null or false — and whose `output_unit` is `"meters"`. -/
theorem feetToMeters_feet_branch (req : FeetToMeters) (f : ℚ) (now : ℕ)
    (h : req.feet = some f) :
    ∃ r : FeetToMetersResponse,
      FeetToMetersTool.run now req = .ok r ∧
      FeetToMetersTool.arun now req = .ok r ∧
      r.output_value =
        some (if pyTruthy req.expressed_in_miles then f * 0.3048 / 1609.34
              else f * 0.3048) ∧
      r.output_unit = some "meters" := by
  rcases req with ⟨feet, miles, eim, eif⟩
  obtain rfl : feet = some f := h
  exact ⟨_, rfl, rfl, rfl, rfl⟩

/-- Witness for C1 at the spec's end-to-end example `feet = 10` (all other
fields null): the outputs of both entry points agree, the unit is
`"meters"`, and the computed value `10 × 0.3048` equals `3.048` exactly. -/
theorem feetToMeters_feet_branch_witness :
    (∃ r : FeetToMetersResponse,
      FeetToMetersTool.run 0 ⟨some 10, none, none, none⟩ = .ok r ∧
      FeetToMetersTool.arun 0 ⟨some 10, none, none, none⟩ = .ok r ∧
      r.output_value =
        some (if pyTruthy (none : Option Bool) then 10 * 0.3048 / 1609.34
              else (10 : ℚ) * 0.3048) ∧
      r.output_unit = some "meters") ∧
    (10 : ℚ) * 0.3048 = 3.048 :=
  ⟨feetToMeters_feet_branch ⟨some 10, none, none, none⟩ 10 0 rfl, by norm_num⟩

/-- Claim C2: for every request to the feet-to-meters tool with `feet` null
and `miles` a non-null value `m`, the tool returns a response whose
`output_value` is `m × 1.60934` — further multiplied by `0.621371` exactly
when `expressed_in_feet` is true — and whose `output_unit` is
`"kilometers"`. -/
theorem feetToMeters_miles_branch (req : FeetToMeters) (m : ℚ) (now : ℕ)
    (hf : req.feet = none) (hm : req.miles = some m) :
    ∃ r : FeetToMetersResponse,
      FeetToMetersTool.run now req = .ok r ∧
      FeetToMetersTool.arun now req = .ok r ∧
      r.output_value =
        some (if pyTruthy req.expressed_in_feet then m * 1.60934 * 0.621371
              else m * 1.60934) ∧
      r.output_unit = some "kilometers" := by
  rcases req with ⟨feet, miles, eim, eif⟩
  obtain rfl : feet = none := hf
  obtain rfl : miles = some m := hm
  exact ⟨_, rfl, rfl, rfl, rfl⟩

/-- Witness for C2 at `miles = 2` (all other fields null). -/
theorem feetToMeters_miles_branch_witness :
    ∃ r : FeetToMetersResponse,
      FeetToMetersTool.run 0 ⟨none, some 2, none, none⟩ = .ok r ∧
      FeetToMetersTool.arun 0 ⟨none, some 2, none, none⟩ = .ok r ∧
      r.output_value =
        some (if pyTruthy (none : Option Bool) then 2 * 1.60934 * 0.621371
              else (2 : ℚ) * 1.60934) ∧
      r.output_unit = some "kilometers" :=
  feetToMeters_miles_branch ⟨none, some 2, none, none⟩ 2 0 rfl rfl

/-- Claim C3: for both two-primary-field tools, the missing-required-field
failure is raised if and only if both primary numeric fields are null; in
every other case (including a zero value) the run succeeds, so the error
branch is the only raising path. -/
theorem missingRequiredField_iff :
    (∀ (now : ℕ) (req : FeetToMeters),
        (∃ e, FeetToMetersTool.run now req = .error e) ↔
          req.feet = none ∧ req.miles = none) ∧
    (∀ (now : ℕ) (req : MetersToFeet),
        (∃ e, MetersToFeetTool.run now req = .error e) ↔
          req.meters = none ∧ req.kilometers = none) := by
  constructor
  · intro now req
    rcases req with ⟨feet, miles, eim, eif⟩
    cases feet <;> cases miles <;> simp [FeetToMetersTool.run]
  · intro now req
    rcases req with ⟨meters, kilometers, eik, eim⟩
    cases meters <;> cases kilometers <;> simp [MetersToFeetTool.run]

/-- Claim C4: the error interceptor passes a normally returned result
through unchanged; when the inner handler raises an exception `e` it
returns a tool message whose content is `"Error: "` followed by the
description of `e` — in particular `"Error: Feet or Miles is required"` for
that failure — and its total return type shows no exception propagates
past the wrapper. -/
theorem handle_errors_spec {Request Result : Type}
    (request : Request) (handler : Request → Except String Result) :
    (∀ r, handler request = .ok r →
        handle_errors request handler = Sum.inr r) ∧
    (∀ e, handler request = .error e →
        handle_errors request handler = Sum.inl ⟨"Error: " ++ e⟩) ∧
    (handler request = .error "Feet or Miles is required" →
        handle_errors request handler =
          Sum.inl ⟨"Error: Feet or Miles is required"⟩) := by
  refine ⟨?_, ?_, ?_⟩
  · intro r hr
    simp [handle_errors, hr]
  · intro e he
    simp [handle_errors, he]
  · intro he
    simp [handle_errors, he]

/-- Claim C5: the state tracker returns, for a last message carrying a
non-empty list of tool invocations, the delta appending the invocation
names in order to `tool_calls_made` and adding their count to
`tool_call_count`; for an empty message list, or a last message whose
`tool_calls` attribute is absent/null or the empty list, it returns the
empty delta. -/
theorem track_tool_calls_delta (s : AgentState) :
    (∀ m tcs, s.messages.getLast? = some m → m.tool_calls = some tcs →
        tcs ≠ [] →
        track_tool_calls s =
          { tool_calls_made := some (s.tool_calls_made ++ tcs.map ToolCall.name)
            tool_call_count := some (s.tool_call_count + (tcs.length : ℤ)) }) ∧
    (s.messages = [] → track_tool_calls s = {}) ∧
    (∀ m, s.messages.getLast? = some m →
        (m.tool_calls = none ∨ m.tool_calls = some []) →
        track_tool_calls s = {}) := by
  refine ⟨?_, ?_, ?_⟩
  · intro m tcs hm htc hne
    cases tcs with
    | nil => exact absurd rfl hne
    | cons a l => simp [track_tool_calls, hm, htc]
  · intro hnil
    simp [track_tool_calls, hnil]
  · intro m hm hnone
    rcases hnone with h | h <;> simp [track_tool_calls, hm, h]

/-- Claim C6: the predicate `tool_call_count = length tool_calls_made`
holds in the initial agent state, is preserved by the state-tracker step,
and `tool_call_count` never decreases across tracker steps. -/
theorem tool_call_count_invariant :
    (∀ msgs, (AgentState.initial msgs).tool_call_count =
        ((AgentState.initial msgs).tool_calls_made.length : ℤ)) ∧
    (∀ s : AgentState,
        s.tool_call_count = (s.tool_calls_made.length : ℤ) →
        (trackStep s).tool_call_count =
          ((trackStep s).tool_calls_made.length : ℤ)) ∧
    (∀ s : AgentState, s.tool_call_count ≤ (trackStep s).tool_call_count) := by
  refine ⟨fun msgs => rfl, ?_, ?_⟩
  · intro s h
    rcases hml : s.messages.getLast? with _ | m
    · simpa [trackStep, track_tool_calls, applyDelta, hml] using h
    · rcases htc : m.tool_calls with _ | tcs
      · simpa [trackStep, track_tool_calls, applyDelta, hml, htc] using h
      · rcases tcs with _ | ⟨a, l⟩
        · simpa [trackStep, track_tool_calls, applyDelta, hml, htc] using h
        · simp [trackStep, track_tool_calls, applyDelta, hml, htc, h]
  · intro s
    rcases hml : s.messages.getLast? with _ | m
    · simp [trackStep, track_tool_calls, applyDelta, hml]
    · rcases htc : m.tool_calls with _ | tcs
      · simp [trackStep, track_tool_calls, applyDelta, hml, htc]
      · rcases tcs with _ | ⟨a, l⟩
        · simp [trackStep, track_tool_calls, applyDelta, hml, htc]
        · simp [trackStep, track_tool_calls, applyDelta, hml, htc]
          omega

/-- Claim C7: composing the fahrenheit-to-celsius tool with the
celsius-to-fahrenheit tool (either spelling variant) returns the original
input exactly: `((x − 32) × 5/9) × 9/5 + 32 = x` over the exact rationals,
hence certainly within the spec's tolerance of 1e-9. -/
theorem temperature_roundtrip (x : ℚ) (now : ℕ) :
    (((FahrenheitToCelsiusTool.run now ⟨some x⟩).bind
        (fun r => CelsiusToFahrenheitTool.run now ⟨r.output_value⟩)).map
        (fun r => r.output_value)) = .ok (some x) ∧
    (((FahrenheitToCelsiusTool.run now ⟨some x⟩).bind
        (fun r => CelsiusToFarenheitTool.run now ⟨r.output_value⟩)).map
        (fun r => r.output_value)) = .ok (some x) := by
  constructor <;>
  · simp only [FahrenheitToCelsiusTool.run, CelsiusToFahrenheitTool.run,
      CelsiusToFarenheitTool.run, Except.bind, Except.map]
    have hx : ((x - 32) * 5 / 9) * 9 / 5 + 32 = x := by ring
    simp [hx]

/-- Claim C8: for each of the five conversion tools and every input
request, the asynchronous entry point produces exactly the same outcome as
the synchronous one — the same response on success and the same failure on
the same inputs. -/
theorem arun_eq_run :
    (∀ (now : ℕ) (req : FeetToMeters),
        FeetToMetersTool.arun now req = FeetToMetersTool.run now req) ∧
    (∀ (now : ℕ) (req : MetersToFeet),
        MetersToFeetTool.arun now req = MetersToFeetTool.run now req) ∧
    (∀ (now : ℕ) (req : FahrenheitToCelsius),
        FahrenheitToCelsiusTool.arun now req = FahrenheitToCelsiusTool.run now req) ∧
    (∀ (now : ℕ) (req : CelsiusToFarenheit),
        CelsiusToFarenheitTool.arun now req = CelsiusToFarenheitTool.run now req) ∧
    (∀ (now : ℕ) (req : CelsiusToFahrenheit),
        CelsiusToFahrenheitTool.arun now req = CelsiusToFahrenheitTool.run now req) :=
  ⟨fun _ _ => rfl, fun _ _ => rfl, fun _ _ => rfl, fun _ _ => rfl, fun _ _ => rfl⟩

/-- Claim C9: on the miles branch of the feet-to-meters tool (feet null,
miles non-null) the response records `input_value = none` — not the
supplied miles value — and `input_unit = "feet"`, even though the output
unit is `"kilometers"`. -/
theorem miles_branch_input_fields (req : FeetToMeters) (m : ℚ) (now : ℕ)
    (hf : req.feet = none) (hm : req.miles = some m) :
    ∃ r : FeetToMetersResponse,
      FeetToMetersTool.run now req = .ok r ∧
      r.input_value = none ∧
      r.input_unit = some "feet" ∧
      r.output_unit = some "kilometers" := by
  rcases req with ⟨feet, miles, eim, eif⟩
  obtain rfl : feet = none := hf
  obtain rfl : miles = some m := hm
  exact ⟨_, rfl, rfl, rfl, rfl⟩

/-- Witness for C9 at `miles = 5` (all other fields null). -/
theorem miles_branch_input_fields_witness :
    ∃ r : FeetToMetersResponse,
      FeetToMetersTool.run 0 ⟨none, some 5, none, none⟩ = .ok r ∧
      r.input_value = none ∧
      r.input_unit = some "feet" ∧
      r.output_unit = some "kilometers" :=
  miles_branch_input_fields ⟨none, some 5, none, none⟩ 5 0 rfl rfl

/-- Helper: the delta returned by `track_tool_calls` never touches the
`errors` or `has_errors` fields. -/
theorem track_tool_calls_no_error_fields (s : AgentState) :
    (track_tool_calls s).errors = none ∧
    (track_tool_calls s).has_errors = none := by
  rcases hml : s.messages.getLast? with _ | m
  · simp [track_tool_calls, hml]
  · rcases htc : m.tool_calls with _ | tcs
    · simp [track_tool_calls, hml, htc]
    · rcases tcs with _ | ⟨a, l⟩ <;> simp [track_tool_calls, hml, htc]

/-- Claim C10: in every reachable state of the compiled workflow, `errors`
is the empty sequence and `has_errors` is false — the initial state starts
that way and neither the agent node nor the state tracker ever writes
either field. -/
theorem reachable_no_errors (s : AgentState) (h : Reachable s) :
    s.errors = [] ∧ s.has_errors = false := by
  induction h with
  | init msgs => exact ⟨rfl, rfl⟩
  | agent s produced hs ih => exact ih
  | track s hs ih =>
      obtain ⟨he, hh⟩ := track_tool_calls_no_error_fields s
      simp only [trackStep, applyDelta, he, hh, Option.getD_none]
      exact ih

/-- Witness for C10: the initial state with no seed messages is reachable
and satisfies the invariant. -/
theorem reachable_no_errors_witness :
    (AgentState.initial []).errors = [] ∧
    (AgentState.initial []).has_errors = false :=
  reachable_no_errors (AgentState.initial []) (Reachable.init [])
